import Mathlib

/-!
Verification development for the QR-based school attendance system
(`attendance` Django app).  The Python source is shallowly embedded:

* times of day are natural numbers of minutes since midnight (the source
  compares `datetime.time` values; all comparisons made by the source are
  at minute granularity, since both the stored schedule times and the
  lateness/slot arithmetic use only `hour` and `minute`);
* calendar dates, student ids and subject ids are natural numbers;
* Django querysets over `AttendanceRecord` become lists of records;
* choice-field strings (`"PRESENT"`, `"QR"`, `"MON"`, ...) become
  inductive types with identically named constructors.
-/

namespace Attendance

/-- Day-of-week labels, as produced by `day_mapping` in
`attendance/utils.py` (`{0: "MON", ..., 6: "SUN"}`) and stored in
`Subject.days_of_week`. -/
inductive Weekday
  | MON | TUE | WED | THU | FRI | SAT | SUN
  deriving DecidableEq, Repr

/-- `AttendanceRecord.STATUS_CHOICES` from `attendance/models.py`. -/
inductive AttStatus
  | PRESENT | LATE | ABSENT
  deriving DecidableEq, Repr

/-- `AttendanceRecord.SCAN_METHOD_CHOICES` from `attendance/models.py`. -/
inductive ScanMethod
  | QR | MANUAL
  deriving DecidableEq, Repr

/-- `ParentNotification.STATUS_CHOICES` from `attendance/models.py`. -/
inductive NotifStatus
  | PENDING | SENT | FAILED
  deriving DecidableEq, Repr

/-- The `SchoolSettings` singleton of `attendance/models.py`: only the
fields the engine reads. -/
structure SchoolSettings where
  absence_alert_threshold : Nat
  enable_auto_sms : Bool
  scan_tolerance_minutes : Nat
  deriving DecidableEq, Repr

/-- A `Subject` row (`attendance/models.py`): schedule fields and the
many-to-many enrollment roster (`students`), by student profile id.
`start_time` and `end_time` are minutes since midnight. -/
structure Subject where
  id : Nat
  days_of_week : List Weekday
  start_time : Nat
  end_time : Nat
  students : List Nat
  deriving DecidableEq, Repr

/-- A wall-clock instant as the scan logic observes it: the weekday
(`current_time.weekday()` already mapped through `day_mapping`) and the
time of day in minutes (`current_time.time()` at the minute granularity
the source compares at). -/
structure LocalTime where
  weekday : Weekday
  minutes : Nat
  deriving DecidableEq, Repr

/-- An `AttendanceRecord` row (`attendance/models.py`): subject-based
attendance, unique on `(student, subject, date)`.  `timestamp` is the
creation instant in minutes (auto_now_add; never touched by updates),
`location_data` models the optional JSON payload. -/
structure AttendanceRecord where
  student : Nat
  subject : Nat
  date : Nat
  status : AttStatus
  scan_method : ScanMethod
  timestamp : Nat
  location_data : Option Nat
  deriving DecidableEq, Repr

/-- A `ParentNotification` row (`attendance/models.py`).  The message is
a deterministic template of the student/record facts; the only varying
part the spec cares about is whether it carries the
`ALERT (Threshold N reached): ` marker, modelled by
`alert_prefixed`. -/
structure ParentNotification where
  student : Nat
  attendance_record : Option AttendanceRecord
  alert_prefixed : Bool
  status : NotifStatus
  deriving DecidableEq, Repr

/-- Reduce an instant on the integer minute line back to a time of day,
exactly as Python's `(datetime ± timedelta).time()` does after the
tolerance arithmetic in `is_within_time_window`. -/
def wrap_time (m : Int) : Nat := (m % 1440).toNat

/-- The outcome messages of `is_within_time_window`
(`attendance/utils.py`), keeping the data interpolated into each
f-string. -/
inductive WindowReason
  | notScheduledOn (day : Weekday)
  | scanSuccessful
  | outsideClassTime (start_time end_time : Nat)
  deriving DecidableEq, Repr

/-- `is_within_time_window(subject, current_time, tolerance_minutes=None)`
from `attendance/utils.py`.  The `SchoolSettings.get_settings()` read
becomes the explicit `settings` argument; `tolerance_minutes = None`
falls back to `settings.scan_tolerance_minutes`.  The widened bounds are
computed on the datetime line and reduced back to times of day
(`wrap_time`), then compared inclusively against `current_time.time()`. -/
def is_within_time_window (subject : Subject) (current_time : LocalTime)
    (tolerance_minutes : Option Nat) (settings : SchoolSettings) :
    Bool × WindowReason :=
  let tol := tolerance_minutes.getD settings.scan_tolerance_minutes
  let current_day := current_time.weekday
  if current_day ∈ subject.days_of_week then
    let current_time_only := current_time.minutes
    let start_with_tolerance := wrap_time ((subject.start_time : Int) - tol)
    let end_with_tolerance := wrap_time ((subject.end_time : Int) + tol)
    if start_with_tolerance ≤ current_time_only ∧
        current_time_only ≤ end_with_tolerance then
      (true, .scanSuccessful)
    else
      (false, .outsideClassTime subject.start_time subject.end_time)
  else
    (false, .notScheduledOn current_day)

/-- `trigger_parent_notification(attendance_record)` from
`attendance/utils.py`.  The ambient database reads become explicit
arguments: `records` is the `AttendanceRecord` table (for the
`absence_count` query), `settings` the `SchoolSettings` singleton.
Returns the created `ParentNotification` (callers persist it), or
`none`. -/
def trigger_parent_notification (attendance_record : AttendanceRecord)
    (records : List AttendanceRecord) (settings : SchoolSettings) :
    Option ParentNotification :=
  if attendance_record.status ≠ .ABSENT then
    none
  else
    if settings.enable_auto_sms then
      some { student := attendance_record.student,
             attendance_record := some attendance_record,
             alert_prefixed := false, status := .SENT }
    else
      let absence_count := (records.filter (fun r =>
        r.student == attendance_record.student &&
          r.status == AttStatus.ABSENT)).length
      if absence_count ≥ settings.absence_alert_threshold then
        some { student := attendance_record.student,
               attendance_record := some attendance_record,
               alert_prefixed := true, status := .SENT }
      else
        none

/-- The tagged outcomes of the subject-scan branch of `verify_scan`
(`attendance/views_scan.py`), one per early-return `JsonResponse`. -/
inductive ScanResult
  | subjectNotFound
  | notEnrolled (student subject : Nat)
  | outsideWindow (reason : WindowReason)
  | alreadyMarked (student subject : Nat)
  | success (status : AttStatus)
  deriving DecidableEq, Repr

/-- The subject-scan branch of `verify_scan`
(`attendance/views_scan.py` lines 74-141), entered once the QR token has
resolved to a student and a `subject_id` is present: subject lookup,
enrollment check, time-window check, late classification
(`time_diff = now hour*60+minute - start hour*60+minute`, LATE iff
`> 10`), then the create guarded by the `(student, subject, date)`
`unique_together` constraint, whose `IntegrityError` is surfaced as the
already-marked conflict. -/
def verify_scan (records : List AttendanceRecord) (subjects : List Subject)
    (student_id : Nat) (subject_id : Nat) (now : LocalTime) (today : Nat)
    (location_data : Option Nat) (settings : SchoolSettings) :
    ScanResult × List AttendanceRecord :=
  match subjects.find? (fun s => s.id == subject_id) with
  | none => (.subjectNotFound, records)
  | some subject =>
    if student_id ∈ subject.students then
      let check := is_within_time_window subject now none settings
      if check.1 then
        let status : AttStatus :=
          if ((now.minutes : Int) - (subject.start_time : Int)) > 10 then
            .LATE
          else
            .PRESENT
        if records.any (fun r =>
            r.student == student_id && r.subject == subject.id &&
              r.date == today) then
          (.alreadyMarked student_id subject.id, records)
        else
          let attendance : AttendanceRecord :=
            { student := student_id, subject := subject.id, date := today,
              status := status, scan_method := .QR, timestamp := now.minutes,
              location_data := location_data }
          (.success status, attendance :: records)
      else
        (.outsideWindow check.2, records)
    else
      (.notEnrolled student_id subject.id, records)

/-- Modelled from the spec: the `DailyAttendance` model class itself is
not among the provided source files; only its callers
(`views_scan.py`, `views_teacher.py`, `views_principal.py`) are.  Per
spec §3 "Daily Gate Attendance": one row per (student, date), four
optional time-of-day punch slots, derived `status` and `minutes_late`.
`status = none` models the field still at its model default, before any
AM-in punch has classified the day. -/
structure DailyAttendance where
  time_in_am : Option Nat
  time_out_am : Option Nat
  time_in_pm : Option Nat
  time_out_pm : Option Nat
  status : Option AttStatus
  minutes_late : Nat
  deriving DecidableEq, Repr

/-- The fresh row produced by `get_or_create` on a student's first punch
of the day: all four slots empty, status not yet classified. -/
def DailyAttendance.fresh : DailyAttendance :=
  { time_in_am := none, time_out_am := none, time_in_pm := none,
    time_out_pm := none, status := none, minutes_late := 0 }

/-- The four gate-punch actions of `process_general_attendance`
(`attendance/views_scan.py`), named as the `action` strings the source
sets. -/
inductive GateAction
  | TIME_IN_AM | TIME_OUT_AM | TIME_IN_PM | TIME_OUT_PM
  deriving DecidableEq, Repr

/-- The slot field a gate action writes. -/
def DailyAttendance.slot (a : DailyAttendance) : GateAction → Option Nat
  | .TIME_IN_AM => a.time_in_am
  | .TIME_OUT_AM => a.time_out_am
  | .TIME_IN_PM => a.time_in_pm
  | .TIME_OUT_PM => a.time_out_pm

/-- Python exceptions the embedded code can raise. -/
inductive PyError
  | typeError
  deriving DecidableEq, Repr

/-- The notification step at the end of `process_general_attendance`
(`attendance/views_scan.py` lines 304-310).  The source calls
`trigger_parent_notification(student, None, f"...")` with three
positional arguments, but `trigger_parent_notification` in
`attendance/utils.py` is declared with exactly one parameter
(`attendance_record`), so Python raises `TypeError` at the call site,
before the function body — and hence any
`ParentNotification.objects.create` — can run. -/
def gate_notification_call (_student : Nat) (_action : GateAction) :
    Except PyError (Option ParentNotification) :=
  .error .typeError

/-- Outcomes of `process_general_attendance`: the per-slot 409 conflict
responses, the HTTP 200 success payload the source builds at the end,
and a raised exception (propagating to `verify_scan`'s blanket
`except Exception` handler, which renders it as a generic HTTP 500). -/
inductive GateResponse
  | alreadyPunched (slot : GateAction) (stored : Nat)
  | success (action : GateAction)
  | serverError (e : PyError)
  deriving DecidableEq, Repr

/-- `process_general_attendance(student)` from
`attendance/views_scan.py` (lines 199-325).  The `get_or_create`d row
for (student, today) is the explicit `attendance` argument, the
`ParentNotification` table is `notifications`, and `current_time` is
`timezone.localtime().time()` in minutes.  Boundaries in minutes:
08:00 = 480, 12:00 = 720, 13:00 = 780, 16:00 = 960.  Each branch fills
its slot only when empty (saving the row), else returns the 409
conflict; a filled slot sets `action`, after which the source reaches
the `trigger_parent_notification` call (`gate_notification_call`). -/
def process_general_attendance (attendance : DailyAttendance)
    (notifications : List ParentNotification) (student : Nat)
    (current_time : Nat) :
    GateResponse × DailyAttendance × List ParentNotification :=
  let finish : GateAction → DailyAttendance →
      GateResponse × DailyAttendance × List ParentNotification :=
    fun action att =>
      match gate_notification_call student action with
      | .error e => (.serverError e, att, notifications)
      | .ok (some n) => (.success action, att, n :: notifications)
      | .ok none => (.success action, att, notifications)
  if current_time < 720 then
    match attendance.time_in_am with
    | none =>
      let att :=
        if current_time > 480 then
          { attendance with
              time_in_am := some current_time,
              status := some .LATE,
              minutes_late := current_time - 8 * 60 }
        else
          { attendance with
              time_in_am := some current_time,
              status := some .PRESENT }
      finish .TIME_IN_AM att
    | some t => (.alreadyPunched .TIME_IN_AM t, attendance, notifications)
  else if current_time < 780 then
    match attendance.time_out_am with
    | none =>
      finish .TIME_OUT_AM { attendance with time_out_am := some current_time }
    | some t => (.alreadyPunched .TIME_OUT_AM t, attendance, notifications)
  else if current_time < 960 then
    match attendance.time_in_pm with
    | none =>
      finish .TIME_IN_PM { attendance with time_in_pm := some current_time }
    | some t => (.alreadyPunched .TIME_IN_PM t, attendance, notifications)
  else
    match attendance.time_out_pm with
    | none =>
      finish .TIME_OUT_PM { attendance with time_out_pm := some current_time }
    | some t => (.alreadyPunched .TIME_OUT_PM t, attendance, notifications)

/-- Outcomes of `mark_manual_attendance`: the not-enrolled redirect with
an error message, or the success redirect. -/
inductive ManualResult
  | notEnrolled
  | success
  deriving DecidableEq, Repr

/-- The POST branch of `mark_manual_attendance(request, subject_id)`
(`attendance/views_teacher.py` lines 333-371): enrollment check, then
`AttendanceRecord.objects.update_or_create` on
(student, subject, date = today) with defaults
`status`/`scan_method = "MANUAL"` (other fields of an existing row are
untouched), then `trigger_parent_notification(attendance)` when the
supplied status is ABSENT — called after the upsert, so the absence
count includes the row just written. -/
def mark_manual_attendance (records : List AttendanceRecord)
    (notifications : List ParentNotification) (subject : Subject)
    (student_id : Nat) (status : AttStatus) (today : Nat)
    (now_minutes : Nat) (settings : SchoolSettings) :
    ManualResult × List AttendanceRecord × List ParentNotification :=
  if student_id ∈ subject.students then
    let key : AttendanceRecord → Bool := fun r =>
      r.student == student_id && r.subject == subject.id && r.date == today
    let upsert :=
      match records.find? key with
      | some r =>
        let updated := { r with status := status, scan_method := .MANUAL }
        (updated, records.map (fun x => if key x then updated else x))
      | none =>
        let created : AttendanceRecord :=
          { student := student_id, subject := subject.id, date := today,
            status := status, scan_method := .MANUAL,
            timestamp := now_minutes, location_data := none }
        (created, created :: records)
    let notifications' :=
      if status = .ABSENT then
        match trigger_parent_notification upsert.1 upsert.2 settings with
        | some n => n :: notifications
        | none => notifications
      else
        notifications
    (.success, upsert.2, notifications')
  else
    (.notEnrolled, records, notifications)

/-- Modelled from the spec: `generate_qr_code` / `verify_qr_data` in
`attendance/utils.py` delegate the signing itself to Django's
`signing.TimestampSigner`, library code outside this repository.  Per
spec §4.1 the signer embeds the issue time and a signature over the
server-held secret, the signed value and the timestamp; the ideal MAC is
modelled as an injective pairing of those three, so any token whose
signature was not produced over exactly its own (value, timestamp) with
the server key is rejected as tampered. -/
def mac_sign (key value timestamp : Nat) : Nat :=
  Nat.pair key (Nat.pair value timestamp)

/-- A signed token: the payload `TimestampSigner.sign` produces
(value, embedded issue timestamp, signature). -/
structure SignedToken where
  value : Nat
  timestamp : Nat
  sig : Nat
  deriving DecidableEq, Repr

/-- The signing step of `generate_qr_code(uuid_str)`
(`attendance/utils.py` lines 12-41): `TimestampSigner().sign(str(uuid))`
at the current time.  The QR-image rendering of the token is
presentation only. -/
def generate_qr_code (key uuid_str now : Nat) : SignedToken :=
  { value := uuid_str, timestamp := now, sig := mac_sign key uuid_str now }

/-- `verify_qr_data(signed_data, max_age=300)` from
`attendance/utils.py` (lines 44-60): `unsign` recomputes the signature
(`BadSignature` on mismatch) and rejects an age strictly greater than
`max_age` (`SignatureExpired`); both exception kinds collapse to the
single `none` outcome. -/
def verify_qr_data (key : Nat) (signed_data : SignedToken) (max_age : Nat)
    (now : Nat) : Option Nat :=
  if signed_data.sig = mac_sign key signed_data.value signed_data.timestamp
  then
    if now - signed_data.timestamp > max_age then none
    else some signed_data.value
  else
    none

/-- The default `max_age` of `verify_qr_data`: 300 seconds. -/
def default_max_age : Nat := 300

/-! ## Shared concrete fixtures and helper measures -/

/-- A `SchoolSettings` row with the model-field defaults
(`absence_alert_threshold = 3`, `enable_auto_sms = True`,
`scan_tolerance_minutes = 15`). -/
def demo_settings : SchoolSettings :=
  { absence_alert_threshold := 3, enable_auto_sms := true,
    scan_tolerance_minutes := 15 }

/-- The spec's running example subject: Mon/Wed/Fri, 08:00-09:00,
student 7 enrolled. -/
def demo_subject : Subject :=
  { id := 1, days_of_week := [.MON, .WED, .FRI], start_time := 480,
    end_time := 540, students := [7] }

/-- A subject whose tolerance-widened window crosses midnight:
00:05-23:55 with the default 15-minute tolerance wraps both bounds. -/
def wrap_subject : Subject :=
  { id := 2, days_of_week := [.MON], start_time := 5, end_time := 1435,
    students := [] }

/-- How many `AttendanceRecord` rows share a `(student, subject, date)`
key: the quantity the `unique_together` constraint bounds by one. -/
def record_key_count (records : List AttendanceRecord)
    (student subject date : Nat) : Nat :=
  (records.filter (fun r =>
    r.student == student && r.subject == subject && r.date == date)).length

/-- The slot a punch at a given minute lands in, read off the fixed
wall-clock boundaries of `process_general_attendance`. -/
def slot_of (current_time : Nat) : GateAction :=
  if current_time < 720 then .TIME_IN_AM
  else if current_time < 780 then .TIME_OUT_AM
  else if current_time < 960 then .TIME_IN_PM
  else .TIME_OUT_PM

/-- The `absence_count` query of `trigger_parent_notification`: the
student's all-time ABSENT rows across all subjects. -/
def absence_count (records : List AttendanceRecord) (student : Nat) : Nat :=
  (records.filter (fun r =>
    r.student == student && r.status == AttStatus.ABSENT)).length

/-- Settings with auto-SMS off, as in the spec's threshold scenario. -/
def strict_settings : SchoolSettings :=
  { absence_alert_threshold := 3, enable_auto_sms := false,
    scan_tolerance_minutes := 15 }

/-! ## Theorems -/

/-- C2: `is_within_time_window` defaults its tolerance to the school
policy's `scan_tolerance_minutes`; on a non-scheduled weekday it
rejects with the not-scheduled-this-day reason; and, when the widened
window does not cross midnight, it accepts exactly when `now`'s
time-of-day lies in the inclusive interval
`[start - tolerance, end + tolerance]` — so both boundary minutes are
accepted and one minute beyond either bound is rejected. -/
theorem is_within_time_window_spec (subject : Subject) (now : LocalTime)
    (tolerance_minutes : Option Nat) (settings : SchoolSettings) (tol : Nat)
    (htol : tolerance_minutes.getD settings.scan_tolerance_minutes = tol)
    (hlo : tol ≤ subject.start_time) (hstart : subject.start_time < 1440)
    (hhi : subject.end_time + tol < 1440) :
    is_within_time_window subject now tolerance_minutes settings =
        is_within_time_window subject now (some tol) settings ∧
    ((is_within_time_window subject now tolerance_minutes settings).1 = true ↔
      now.weekday ∈ subject.days_of_week ∧
        subject.start_time - tol ≤ now.minutes ∧
        now.minutes ≤ subject.end_time + tol) ∧
    (now.weekday ∉ subject.days_of_week →
      is_within_time_window subject now tolerance_minutes settings =
        (false, WindowReason.notScheduledOn now.weekday)) := by
  have hs : wrap_time ((subject.start_time : Int) - tol) =
      subject.start_time - tol := by
    unfold wrap_time; omega
  have he : wrap_time ((subject.end_time : Int) + tol) =
      subject.end_time + tol := by
    unfold wrap_time; omega
  refine ⟨?_, ?_, ?_⟩
  · simp only [is_within_time_window, htol, Option.getD_some]
  · simp only [is_within_time_window, htol, hs, he]
    by_cases hday : now.weekday ∈ subject.days_of_week
    · simp only [if_pos hday]
      split_ifs with hin
      · simp [hday, hin]
      · simp only [hday, true_and]
        constructor
        · intro hc
          simp at hc
        · intro hc
          exact absurd hc hin
    · simp [hday]
  · intro hday
    simp only [is_within_time_window, htol]
    simp [hday]

/-- Witness for C2 at the spec's running example (Mon/Wed/Fri
08:00-09:00, tolerance 15): both widened bounds accepted, one minute
beyond each rejected, Tuesday rejected as not scheduled. -/
theorem is_within_time_window_spec_witness :
    (is_within_time_window demo_subject ⟨.MON, 465⟩ none demo_settings).1 =
      true ∧
    ¬ (is_within_time_window demo_subject ⟨.MON, 464⟩ none
        demo_settings).1 = true ∧
    (is_within_time_window demo_subject ⟨.MON, 555⟩ none demo_settings).1 =
      true ∧
    ¬ (is_within_time_window demo_subject ⟨.MON, 556⟩ none
        demo_settings).1 = true ∧
    is_within_time_window demo_subject ⟨.TUE, 485⟩ none demo_settings =
      (false, WindowReason.notScheduledOn .TUE) := by
  have w1 := is_within_time_window_spec demo_subject ⟨.MON, 465⟩ none
    demo_settings 15 (by decide) (by decide) (by decide) (by decide)
  have w2 := is_within_time_window_spec demo_subject ⟨.MON, 464⟩ none
    demo_settings 15 (by decide) (by decide) (by decide) (by decide)
  have w3 := is_within_time_window_spec demo_subject ⟨.MON, 555⟩ none
    demo_settings 15 (by decide) (by decide) (by decide) (by decide)
  have w4 := is_within_time_window_spec demo_subject ⟨.MON, 556⟩ none
    demo_settings 15 (by decide) (by decide) (by decide) (by decide)
  have w5 := is_within_time_window_spec demo_subject ⟨.TUE, 485⟩ none
    demo_settings 15 (by decide) (by decide) (by decide) (by decide)
  exact ⟨w1.2.1.mpr (by decide),
    fun hc => absurd (w2.2.1.mp hc) (by decide),
    w3.2.1.mpr (by decide),
    fun hc => absurd (w4.2.1.mp hc) (by decide),
    w5.2.2 (by decide)⟩

/-- C10: when the tolerance arithmetic wraps past midnight so that the
reduced lower bound exceeds the reduced upper bound, the inclusive
comparison in `is_within_time_window` is unsatisfiable: every scan on a
scheduled day is rejected with the outside-class-time reason — the
window is never split into a late-night plus early-morning segment. -/
theorem is_within_time_window_wrapped_unsat (subject : Subject)
    (now : LocalTime) (tolerance_minutes : Option Nat)
    (settings : SchoolSettings) (tol : Nat)
    (htol : tolerance_minutes.getD settings.scan_tolerance_minutes = tol)
    (hday : now.weekday ∈ subject.days_of_week)
    (hwrap : wrap_time ((subject.end_time : Int) + tol) <
      wrap_time ((subject.start_time : Int) - tol)) :
    is_within_time_window subject now tolerance_minutes settings =
      (false, WindowReason.outsideClassTime subject.start_time
        subject.end_time) := by
  simp only [is_within_time_window, htol]
  rw [if_pos hday, if_neg]
  omega

/-- Witness for C10: schedule 00:05-23:55 with tolerance 15 wraps to
bounds 23:50 and 00:10; a mid-day Monday scan is rejected as outside
class time. -/
theorem is_within_time_window_wrapped_unsat_witness :
    is_within_time_window wrap_subject ⟨.MON, 720⟩ none demo_settings =
      (false, WindowReason.outsideClassTime 5 1435) :=
  is_within_time_window_wrapped_unsat wrap_subject ⟨.MON, 720⟩ none
    demo_settings 15 (by decide) (by decide) (by decide)

/-- A scan leaves the record table unchanged, or prepends one record
whose key was absent (the `unique_together` check passed). -/
lemma verify_scan_records_cases (records : List AttendanceRecord)
    (subjects : List Subject) (student_id subject_id : Nat)
    (now : LocalTime) (today : Nat) (location_data : Option Nat)
    (settings : SchoolSettings) :
    (verify_scan records subjects student_id subject_id now today
        location_data settings).2 = records ∨
    ∃ att : AttendanceRecord,
      (verify_scan records subjects student_id subject_id now today
          location_data settings).2 = att :: records ∧
      att.date = today ∧
      records.any (fun r => r.student == att.student &&
        r.subject == att.subject && r.date == att.date) = false := by
  simp only [verify_scan]
  repeat' split
  all_goals try exact Or.inl rfl
  all_goals refine Or.inr ⟨_, rfl, rfl, ?_⟩
  all_goals simp_all

/-- A nonzero key count means some row matches the key, so the
duplicate guard in `verify_scan` fires. -/
lemma any_of_key_count_ne_zero (records : List AttendanceRecord)
    (s x d : Nat) (h : record_key_count records s x d ≠ 0) :
    records.any (fun r => r.student == s && r.subject == x &&
      r.date == d) = true := by
  unfold record_key_count at h
  have hne : records.filter (fun r => r.student == s && r.subject == x &&
      r.date == d) ≠ [] := by
    intro hnil
    exact h (by rw [hnil]; rfl)
  obtain ⟨a, ha⟩ := List.exists_mem_of_ne_nil _ hne
  obtain ⟨hal, hpa⟩ := List.mem_filter.mp ha
  exact List.any_eq_true.mpr ⟨a, hal, hpa⟩

/-- C1: at most one subject attendance record per
(student, subject, date).  When a record with the scanned key already
exists (and the scan passes the earlier lookup, enrollment and window
checks), `verify_scan` returns the already-marked conflict and the
record table — every field of the existing record included — is
unchanged; and any scan whatsoever preserves the invariant that a key
occurs at most once. -/
theorem verify_scan_duplicate_record (records : List AttendanceRecord)
    (subjects : List Subject) (student_id subject_id : Nat)
    (now : LocalTime) (today : Nat) (location_data : Option Nat)
    (settings : SchoolSettings) (subject : Subject)
    (hfind : subjects.find? (fun s => s.id == subject_id) = some subject)
    (henr : student_id ∈ subject.students)
    (hwin : (is_within_time_window subject now none settings).1 = true)
    (hexists : record_key_count records student_id subject.id today ≠ 0) :
    verify_scan records subjects student_id subject_id now today
        location_data settings =
      (ScanResult.alreadyMarked student_id subject.id, records) ∧
    ∀ (records2 : List AttendanceRecord) (sid2 subid2 : Nat)
      (now2 : LocalTime) (today2 : Nat) (loc2 : Option Nat) (s x d : Nat),
      record_key_count records2 s x d ≤ 1 →
      record_key_count (verify_scan records2 subjects sid2 subid2 now2
        today2 loc2 settings).2 s x d ≤ 1 := by
  constructor
  · have hany := any_of_key_count_ne_zero records student_id subject.id
      today hexists
    simp only [verify_scan, hfind]
    rw [if_pos henr]
    simp only [hwin, if_true, hany]
  · intro records2 sid2 subid2 now2 today2 loc2 s x d hle
    rcases verify_scan_records_cases records2 subjects sid2 subid2 now2
        today2 loc2 settings with h | ⟨att, heq, _, hany⟩
    · rw [h]; exact hle
    · rw [heq]
      unfold record_key_count at hle ⊢
      rw [List.filter_cons]
      by_cases hk : (att.student == s && att.subject == x &&
          att.date == d) = true
      · have hempty : records2.filter (fun r => r.student == s &&
            r.subject == x && r.date == d) = [] := by
          have hall := List.any_eq_false.mp hany
          refine List.filter_eq_nil_iff.mpr (fun a hma hpa => ?_)
          refine hall a hma ?_
          simp only [Bool.and_eq_true, beq_iff_eq] at hk hpa ⊢
          omega
        simp [hk, hempty]
      · simp [hk, hle]

/-- Witness for C1: a second scan for the same (student 7, subject 1,
date 10) key is rejected as already marked with the table untouched,
and a fresh scan keeps the key count at most one. -/
theorem verify_scan_duplicate_record_witness :
    verify_scan [⟨7, 1, 10, .PRESENT, .QR, 485, none⟩] [demo_subject] 7 1
        ⟨.MON, 500⟩ 10 none demo_settings =
      (ScanResult.alreadyMarked 7 1,
        [⟨7, 1, 10, .PRESENT, .QR, 485, none⟩]) ∧
    record_key_count (verify_scan [] [demo_subject] 7 1 ⟨.MON, 500⟩ 10
      none demo_settings).2 7 1 10 ≤ 1 := by
  have h := verify_scan_duplicate_record
    [⟨7, 1, 10, .PRESENT, .QR, 485, none⟩] [demo_subject] 7 1 ⟨.MON, 500⟩
    10 none demo_settings demo_subject (by decide) (by decide) (by decide)
    (by decide)
  exact ⟨h.1, h.2 [] 7 1 ⟨.MON, 500⟩ 10 none 7 1 10 (by decide)⟩

/-- C3: a subject scan that passes the enrollment and window checks and
is not a duplicate is recorded LATE exactly when the scan time strictly
exceeds the subject's start by more than 10 minutes, PRESENT otherwise
(ties to PRESENT), and never ABSENT. -/
theorem verify_scan_late_classification (records : List AttendanceRecord)
    (subjects : List Subject) (student_id subject_id : Nat)
    (now : LocalTime) (today : Nat) (location_data : Option Nat)
    (settings : SchoolSettings) (subject : Subject)
    (hfind : subjects.find? (fun s => s.id == subject_id) = some subject)
    (henr : student_id ∈ subject.students)
    (hwin : (is_within_time_window subject now none settings).1 = true)
    (hdup : records.any (fun r => r.student == student_id &&
      r.subject == subject.id && r.date == today) = false) :
    ((verify_scan records subjects student_id subject_id now today
        location_data settings).1 = ScanResult.success .LATE ↔
      (10 : Int) < (now.minutes : Int) - (subject.start_time : Int)) ∧
    ((verify_scan records subjects student_id subject_id now today
        location_data settings).1 = ScanResult.success .PRESENT ↔
      (now.minutes : Int) - (subject.start_time : Int) ≤ 10) ∧
    ∀ st, (verify_scan records subjects student_id subject_id now today
      location_data settings).1 = ScanResult.success st →
        st ≠ AttStatus.ABSENT := by
  have hred : (verify_scan records subjects student_id subject_id now
      today location_data settings).1 =
      ScanResult.success (if ((now.minutes : Int) -
        (subject.start_time : Int)) > 10 then .LATE else .PRESENT) := by
    simp only [verify_scan, hfind]
    rw [if_pos henr]
    simp only [hwin, if_true, hdup]
    rfl
  rw [hred]
  refine ⟨?_, ?_, ?_⟩
  · split_ifs with hc
    · simpa using hc
    · simp only [gt_iff_lt, not_lt] at hc
      constructor
      · intro he
        simp at he
      · intro hlt
        omega
  · split_ifs with hc
    · constructor
      · intro he
        simp at he
      · intro hle
        omega
    · simp only [gt_iff_lt, not_lt] at hc
      simpa using hc
  · intro st hst
    split_ifs at hst with hc <;> simp at hst <;> simp [← hst]

/-- Witness for C3: with subject start 08:00, a scan at 08:15 is LATE,
a scan at 08:10 is PRESENT (tie to PRESENT), and neither is ABSENT. -/
theorem verify_scan_late_classification_witness :
    (verify_scan [] [demo_subject] 7 1 ⟨.MON, 495⟩ 10 none
      demo_settings).1 = ScanResult.success .LATE ∧
    (verify_scan [] [demo_subject] 7 1 ⟨.MON, 490⟩ 10 none
      demo_settings).1 = ScanResult.success .PRESENT := by
  have hl := verify_scan_late_classification [] [demo_subject] 7 1
    ⟨.MON, 495⟩ 10 none demo_settings demo_subject (by decide) (by decide)
    (by decide) (by decide)
  have hp := verify_scan_late_classification [] [demo_subject] 7 1
    ⟨.MON, 490⟩ 10 none demo_settings demo_subject (by decide) (by decide)
    (by decide) (by decide)
  exact ⟨hl.1.mpr (by decide), hp.2.1.mpr (by decide)⟩

/-- Morning entry on an empty AM-in slot: the slot is saved (LATE after
08:00, else PRESENT) and the notification call raises. -/
lemma pga_am_in_empty (att : DailyAttendance)
    (notifs : List ParentNotification) (student t : Nat) (h1 : t < 720)
    (he : att.time_in_am = none) :
    process_general_attendance att notifs student t =
      (GateResponse.serverError .typeError,
        if 480 < t then
          { att with
              time_in_am := some t,
              status := some .LATE,
              minutes_late := t - 8 * 60 }
        else
          { att with
              time_in_am := some t,
              status := some .PRESENT }, notifs) := by
  simp only [process_general_attendance, gate_notification_call]
  rw [if_pos h1, he]

/-- Morning entry on a filled AM-in slot: conflict, nothing changes. -/
lemma pga_am_in_filled (att : DailyAttendance)
    (notifs : List ParentNotification) (student t s : Nat) (h1 : t < 720)
    (he : att.time_in_am = some s) :
    process_general_attendance att notifs student t =
      (GateResponse.alreadyPunched .TIME_IN_AM s, att, notifs) := by
  simp only [process_general_attendance, gate_notification_call]
  rw [if_pos h1, he]

/-- Morning exit on an empty AM-out slot. -/
lemma pga_am_out_empty (att : DailyAttendance)
    (notifs : List ParentNotification) (student t : Nat) (h1 : ¬ t < 720)
    (h2 : t < 780) (he : att.time_out_am = none) :
    process_general_attendance att notifs student t =
      (GateResponse.serverError .typeError,
        { att with time_out_am := some t }, notifs) := by
  simp only [process_general_attendance, gate_notification_call]
  rw [if_neg h1, if_pos h2, he]

/-- Morning exit on a filled AM-out slot: conflict, nothing changes. -/
lemma pga_am_out_filled (att : DailyAttendance)
    (notifs : List ParentNotification) (student t s : Nat) (h1 : ¬ t < 720)
    (h2 : t < 780) (he : att.time_out_am = some s) :
    process_general_attendance att notifs student t =
      (GateResponse.alreadyPunched .TIME_OUT_AM s, att, notifs) := by
  simp only [process_general_attendance, gate_notification_call]
  rw [if_neg h1, if_pos h2, he]

/-- Afternoon entry on an empty PM-in slot. -/
lemma pga_pm_in_empty (att : DailyAttendance)
    (notifs : List ParentNotification) (student t : Nat) (h1 : ¬ t < 720)
    (h2 : ¬ t < 780) (h3 : t < 960) (he : att.time_in_pm = none) :
    process_general_attendance att notifs student t =
      (GateResponse.serverError .typeError,
        { att with time_in_pm := some t }, notifs) := by
  simp only [process_general_attendance, gate_notification_call]
  rw [if_neg h1, if_neg h2, if_pos h3, he]

/-- Afternoon entry on a filled PM-in slot: conflict, nothing changes. -/
lemma pga_pm_in_filled (att : DailyAttendance)
    (notifs : List ParentNotification) (student t s : Nat) (h1 : ¬ t < 720)
    (h2 : ¬ t < 780) (h3 : t < 960) (he : att.time_in_pm = some s) :
    process_general_attendance att notifs student t =
      (GateResponse.alreadyPunched .TIME_IN_PM s, att, notifs) := by
  simp only [process_general_attendance, gate_notification_call]
  rw [if_neg h1, if_neg h2, if_pos h3, he]

/-- Afternoon exit on an empty PM-out slot. -/
lemma pga_pm_out_empty (att : DailyAttendance)
    (notifs : List ParentNotification) (student t : Nat) (h1 : ¬ t < 720)
    (h2 : ¬ t < 780) (h3 : ¬ t < 960) (he : att.time_out_pm = none) :
    process_general_attendance att notifs student t =
      (GateResponse.serverError .typeError,
        { att with time_out_pm := some t }, notifs) := by
  simp only [process_general_attendance, gate_notification_call]
  rw [if_neg h1, if_neg h2, if_neg h3, he]

/-- Afternoon exit on a filled PM-out slot: conflict, nothing changes. -/
lemma pga_pm_out_filled (att : DailyAttendance)
    (notifs : List ParentNotification) (student t s : Nat) (h1 : ¬ t < 720)
    (h2 : ¬ t < 780) (h3 : ¬ t < 960) (he : att.time_out_pm = some s) :
    process_general_attendance att notifs student t =
      (GateResponse.alreadyPunched .TIME_OUT_PM s, att, notifs) := by
  simp only [process_general_attendance, gate_notification_call]
  rw [if_neg h1, if_neg h2, if_neg h3, he]

/-- C4: a gate punch selects its slot solely from the fixed boundaries
(AM-in before 12:00, AM-out in [12:00, 13:00), PM-in in [13:00, 16:00),
PM-out from 16:00 on); an AM-in punch strictly after 08:00 marks the day
LATE with `minutes_late = punch minutes - 480` and otherwise PRESENT;
and a punch into an already-filled slot returns the already-punched
conflict with the stored time, altering nothing. -/
theorem process_general_attendance_slot_spec (attendance : DailyAttendance)
    (notifications : List ParentNotification) (student current_time : Nat) :
    (attendance.slot (slot_of current_time) = none →
      (process_general_attendance attendance notifications student
        current_time).2.1.slot (slot_of current_time) = some current_time) ∧
    (slot_of current_time = .TIME_IN_AM → attendance.time_in_am = none →
      (480 < current_time →
        (process_general_attendance attendance notifications student
            current_time).2.1.status = some .LATE ∧
        (process_general_attendance attendance notifications student
            current_time).2.1.minutes_late = current_time - 480) ∧
      (current_time ≤ 480 →
        (process_general_attendance attendance notifications student
          current_time).2.1.status = some .PRESENT)) ∧
    (∀ t, attendance.slot (slot_of current_time) = some t →
      process_general_attendance attendance notifications student
          current_time =
        (GateResponse.alreadyPunched (slot_of current_time) t, attendance,
          notifications)) := by
  by_cases h1 : current_time < 720
  · have hs : slot_of current_time = .TIME_IN_AM := by
      rw [slot_of, if_pos h1]
    rw [hs]
    refine ⟨?_, ?_, ?_⟩
    · intro hempty
      simp only [DailyAttendance.slot] at hempty
      rw [pga_am_in_empty attendance notifications student current_time h1
        hempty]
      split_ifs <;> rfl
    · intro _ hempty
      constructor
      · intro hlate
        rw [pga_am_in_empty attendance notifications student current_time
          h1 hempty, if_pos hlate]
        exact ⟨rfl, rfl⟩
      · intro hple
        rw [pga_am_in_empty attendance notifications student current_time
          h1 hempty, if_neg (by omega)]
    · intro t ht
      simp only [DailyAttendance.slot] at ht
      exact pga_am_in_filled attendance notifications student current_time
        t h1 ht
  · by_cases h2 : current_time < 780
    · have hs : slot_of current_time = .TIME_OUT_AM := by
        rw [slot_of, if_neg h1, if_pos h2]
      rw [hs]
      refine ⟨?_, ?_, ?_⟩
      · intro hempty
        simp only [DailyAttendance.slot] at hempty
        rw [pga_am_out_empty attendance notifications student current_time
          h1 h2 hempty]
        rfl
      · intro hc
        exact absurd hc (by decide)
      · intro t ht
        simp only [DailyAttendance.slot] at ht
        exact pga_am_out_filled attendance notifications student
          current_time t h1 h2 ht
    · by_cases h3 : current_time < 960
      · have hs : slot_of current_time = .TIME_IN_PM := by
          rw [slot_of, if_neg h1, if_neg h2, if_pos h3]
        rw [hs]
        refine ⟨?_, ?_, ?_⟩
        · intro hempty
          simp only [DailyAttendance.slot] at hempty
          rw [pga_pm_in_empty attendance notifications student
            current_time h1 h2 h3 hempty]
          rfl
        · intro hc
          exact absurd hc (by decide)
        · intro t ht
          simp only [DailyAttendance.slot] at ht
          exact pga_pm_in_filled attendance notifications student
            current_time t h1 h2 h3 ht
      · have hs : slot_of current_time = .TIME_OUT_PM := by
          rw [slot_of, if_neg h1, if_neg h2, if_neg h3]
        rw [hs]
        refine ⟨?_, ?_, ?_⟩
        · intro hempty
          simp only [DailyAttendance.slot] at hempty
          rw [pga_pm_out_empty attendance notifications student
            current_time h1 h2 h3 hempty]
          rfl
        · intro hc
          exact absurd hc (by decide)
        · intro t ht
          simp only [DailyAttendance.slot] at ht
          exact pga_pm_out_filled attendance notifications student
            current_time t h1 h2 h3 ht

/-- Witness for C4: on a fresh day record, an 08:31 punch lands in the
AM-in slot as LATE with 31 minutes late, a 07:55 punch is PRESENT, and
a second 08:30 punch after an 07:55 AM-in is rejected with the stored
07:55 intact. -/
theorem process_general_attendance_slot_spec_witness :
    (process_general_attendance .fresh [] 7 511).2.1.time_in_am =
      some 511 ∧
    (process_general_attendance .fresh [] 7 511).2.1.status =
      some .LATE ∧
    (process_general_attendance .fresh [] 7 511).2.1.minutes_late = 31 ∧
    (process_general_attendance .fresh [] 7 475).2.1.status =
      some .PRESENT ∧
    process_general_attendance
        { DailyAttendance.fresh with time_in_am := some 475 } [] 7 510 =
      (GateResponse.alreadyPunched .TIME_IN_AM 475,
        { DailyAttendance.fresh with time_in_am := some 475 }, []) := by
  have hlate := process_general_attendance_slot_spec .fresh [] 7 511
  have hpres := process_general_attendance_slot_spec .fresh [] 7 475
  have hdup := process_general_attendance_slot_spec
    { DailyAttendance.fresh with time_in_am := some 475 } [] 7 510
  have h511 : slot_of 511 = .TIME_IN_AM := by decide
  have h475 : slot_of 475 = .TIME_IN_AM := by decide
  have h510 : slot_of 510 = .TIME_IN_AM := by decide
  refine ⟨?_, ?_, ?_, ?_, ?_⟩
  · have h := hlate.1 (by rw [h511]; rfl)
    rwa [h511] at h
  · exact ((hlate.2.1 h511 rfl).1 (by omega)).1
  · exact ((hlate.2.1 h511 rfl).1 (by omega)).2
  · exact (hpres.2.1 h475 rfl).2 (by omega)
  · have h := hdup.2.2 475 (by rw [h510]; rfl)
    rwa [h510] at h

/-- C9: a gate punch outside the AM-in band never touches the daily
status, `minutes_late`, or any slot other than its own — only an AM-in
punch classifies the day. -/
theorem process_general_attendance_frame (attendance : DailyAttendance)
    (notifications : List ParentNotification) (student current_time : Nat)
    (hslot : slot_of current_time ≠ .TIME_IN_AM) :
    (process_general_attendance attendance notifications student
        current_time).2.1.status = attendance.status ∧
    (process_general_attendance attendance notifications student
        current_time).2.1.minutes_late = attendance.minutes_late ∧
    ∀ g, g ≠ slot_of current_time →
      (process_general_attendance attendance notifications student
        current_time).2.1.slot g = attendance.slot g := by
  by_cases h1 : current_time < 720
  · exact absurd (by rw [slot_of, if_pos h1]) hslot
  · by_cases h2 : current_time < 780
    · have hs : slot_of current_time = .TIME_OUT_AM := by
        rw [slot_of, if_neg h1, if_pos h2]
      rw [hs]
      cases he : attendance.time_out_am with
      | none =>
        rw [pga_am_out_empty attendance notifications student current_time
          h1 h2 he]
        refine ⟨rfl, rfl, ?_⟩
        intro g hg
        cases g
        · rfl
        · exact absurd rfl hg
        · rfl
        · rfl
      | some s =>
        rw [pga_am_out_filled attendance notifications student
          current_time s h1 h2 he]
        exact ⟨rfl, rfl, fun g _ => rfl⟩
    · by_cases h3 : current_time < 960
      · have hs : slot_of current_time = .TIME_IN_PM := by
          rw [slot_of, if_neg h1, if_neg h2, if_pos h3]
        rw [hs]
        cases he : attendance.time_in_pm with
        | none =>
          rw [pga_pm_in_empty attendance notifications student
            current_time h1 h2 h3 he]
          refine ⟨rfl, rfl, ?_⟩
          intro g hg
          cases g
          · rfl
          · rfl
          · exact absurd rfl hg
          · rfl
        | some s =>
          rw [pga_pm_in_filled attendance notifications student
            current_time s h1 h2 h3 he]
          exact ⟨rfl, rfl, fun g _ => rfl⟩
      · have hs : slot_of current_time = .TIME_OUT_PM := by
          rw [slot_of, if_neg h1, if_neg h2, if_neg h3]
        rw [hs]
        cases he : attendance.time_out_pm with
        | none =>
          rw [pga_pm_out_empty attendance notifications student
            current_time h1 h2 h3 he]
          refine ⟨rfl, rfl, ?_⟩
          intro g hg
          cases g
          · rfl
          · rfl
          · rfl
          · exact absurd rfl hg
        | some s =>
          rw [pga_pm_out_filled attendance notifications student
            current_time s h1 h2 h3 he]
          exact ⟨rfl, rfl, fun g _ => rfl⟩

/-- Witness for C9: a 13:05 punch on a record whose morning is already
classified fills only the PM-in slot, leaving status, minutes late and
the other slots as they were. -/
theorem process_general_attendance_frame_witness :
    (process_general_attendance
        { time_in_am := some 475, time_out_am := some 725,
          time_in_pm := none, time_out_pm := none,
          status := some .PRESENT, minutes_late := 0 } [] 7 785).2.1.status =
      some .PRESENT ∧
    (process_general_attendance
        { time_in_am := some 475, time_out_am := some 725,
          time_in_pm := none, time_out_pm := none,
          status := some .PRESENT, minutes_late := 0 }
        [] 7 785).2.1.minutes_late = 0 ∧
    (process_general_attendance
        { time_in_am := some 475, time_out_am := some 725,
          time_in_pm := none, time_out_pm := none,
          status := some .PRESENT, minutes_late := 0 }
        [] 7 785).2.1.time_in_am = some 475 := by
  have h := process_general_attendance_frame
    { time_in_am := some 475, time_out_am := some 725, time_in_pm := none,
      time_out_pm := none, status := some .PRESENT, minutes_late := 0 }
    [] 7 785 (by decide)
  have hs : slot_of 785 = .TIME_IN_PM := by decide
  refine ⟨h.1, h.2.1, ?_⟩
  exact h.2.2 .TIME_IN_AM (by rw [hs]; exact fun hc => by cases hc)

/-- C5 (code bug): a successful gate punch reaches the
`trigger_parent_notification(student, None, message)` call, which
passes three positional arguments to a one-parameter function; Python
raises `TypeError` there, so no parent notification is ever created on
the gate path and the request fails with the generic error response —
after the punch itself was already saved.  Evaluated at a fresh record
punched at 07:55, and in general: the notification table is unchanged
by every gate punch. -/
theorem process_general_attendance_notification_type_error :
    process_general_attendance .fresh [] 7 475 =
      (GateResponse.serverError .typeError,
        { time_in_am := some 475, time_out_am := none, time_in_pm := none,
          time_out_pm := none, status := some .PRESENT,
          minutes_late := 0 }, []) ∧
    ∀ (attendance : DailyAttendance)
      (notifications : List ParentNotification) (student current_time : Nat),
      (process_general_attendance attendance notifications student
        current_time).2.2 = notifications := by
  constructor
  · rfl
  · intro attendance notifications student current_time
    simp only [process_general_attendance, gate_notification_call]
    repeat' split
    all_goals rfl

/-- C6: the notification trigger creates nothing for a non-ABSENT
record; with auto-SMS on it always creates an unprefixed notification;
with auto-SMS off it creates a notification — carrying the
threshold-alert marker — exactly when the student's cumulative all-time
ABSENT count has reached the policy threshold; and every notification
it creates is marked SENT. -/
theorem trigger_parent_notification_spec
    (attendance_record : AttendanceRecord)
    (records : List AttendanceRecord) (settings : SchoolSettings) :
    (attendance_record.status ≠ .ABSENT →
      trigger_parent_notification attendance_record records settings =
        none) ∧
    (attendance_record.status = .ABSENT →
      settings.enable_auto_sms = true →
      trigger_parent_notification attendance_record records settings =
        some { student := attendance_record.student,
               attendance_record := some attendance_record,
               alert_prefixed := false, status := .SENT }) ∧
    (attendance_record.status = .ABSENT →
      settings.enable_auto_sms = false →
      (trigger_parent_notification attendance_record records settings ≠
          none ↔
        settings.absence_alert_threshold ≤
          absence_count records attendance_record.student) ∧
      (settings.absence_alert_threshold ≤
          absence_count records attendance_record.student →
        trigger_parent_notification attendance_record records settings =
          some { student := attendance_record.student,
                 attendance_record := some attendance_record,
                 alert_prefixed := true, status := .SENT })) ∧
    (∀ n,
      trigger_parent_notification attendance_record records settings =
        some n → n.status = .SENT) := by
  refine ⟨?_, ?_, ?_, ?_⟩
  · intro h
    simp [trigger_parent_notification, h]
  · intro h hsms
    simp [trigger_parent_notification, h, hsms]
  · intro h hsms
    have e1 : trigger_parent_notification attendance_record records
        settings =
        (if absence_count records attendance_record.student ≥
            settings.absence_alert_threshold then
          some { student := attendance_record.student,
                 attendance_record := some attendance_record,
                 alert_prefixed := true, status := .SENT }
        else none) := by
      simp [trigger_parent_notification, absence_count, h, hsms]
    rw [e1]
    constructor
    · split_ifs with hth
      · exact ⟨fun _ => hth, fun _ => Option.some_ne_none _⟩
      · constructor
        · intro hc
          exact absurd rfl hc
        · intro hle
          exact absurd hle hth
    · intro hth
      rw [if_pos hth]
  · intro n hn
    simp only [trigger_parent_notification] at hn
    split_ifs at hn
    all_goals injection hn with hinj
    all_goals rw [← hinj]

/-- Witness for C6 at the spec scenario (auto-SMS off, threshold 3):
the first absence creates nothing, the third creates a
threshold-prefixed SENT notification; with auto-SMS on an absence
creates an unprefixed one; a PRESENT record creates nothing. -/
theorem trigger_parent_notification_spec_witness :
    trigger_parent_notification ⟨7, 1, 1, .ABSENT, .MANUAL, 500, none⟩
        [⟨7, 1, 1, .ABSENT, .MANUAL, 500, none⟩] strict_settings = none ∧
    trigger_parent_notification ⟨7, 1, 3, .ABSENT, .MANUAL, 501, none⟩
        [⟨7, 1, 3, .ABSENT, .MANUAL, 501, none⟩,
         ⟨7, 2, 2, .ABSENT, .MANUAL, 500, none⟩,
         ⟨7, 1, 1, .ABSENT, .MANUAL, 500, none⟩] strict_settings =
      some { student := 7,
             attendance_record :=
               some ⟨7, 1, 3, .ABSENT, .MANUAL, 501, none⟩,
             alert_prefixed := true, status := .SENT } ∧
    trigger_parent_notification ⟨7, 1, 1, .ABSENT, .MANUAL, 500, none⟩
        [⟨7, 1, 1, .ABSENT, .MANUAL, 500, none⟩] demo_settings =
      some { student := 7,
             attendance_record :=
               some ⟨7, 1, 1, .ABSENT, .MANUAL, 500, none⟩,
             alert_prefixed := false, status := .SENT } ∧
    trigger_parent_notification ⟨7, 1, 1, .PRESENT, .QR, 500, none⟩ []
      strict_settings = none := by
  have h1 := trigger_parent_notification_spec
    ⟨7, 1, 1, .ABSENT, .MANUAL, 500, none⟩
    [⟨7, 1, 1, .ABSENT, .MANUAL, 500, none⟩] strict_settings
  have h3 := trigger_parent_notification_spec
    ⟨7, 1, 3, .ABSENT, .MANUAL, 501, none⟩
    [⟨7, 1, 3, .ABSENT, .MANUAL, 501, none⟩,
     ⟨7, 2, 2, .ABSENT, .MANUAL, 500, none⟩,
     ⟨7, 1, 1, .ABSENT, .MANUAL, 500, none⟩] strict_settings
  have ha := trigger_parent_notification_spec
    ⟨7, 1, 1, .ABSENT, .MANUAL, 500, none⟩
    [⟨7, 1, 1, .ABSENT, .MANUAL, 500, none⟩] demo_settings
  have hp := trigger_parent_notification_spec
    ⟨7, 1, 1, .PRESENT, .QR, 500, none⟩ [] strict_settings
  refine ⟨?_, ?_, ?_, ?_⟩
  · by_contra hc
    exact absurd ((h1.2.2.1 rfl rfl).1.mp hc) (by decide)
  · exact (h3.2.2.1 rfl rfl).2 (by decide)
  · exact ha.2.1 rfl rfl
  · exact hp.1 (by decide)

/-- C7: a token signed over a student identifier at time `T` verifies to
exactly that identifier at any `now` with `now - T ≤ maxAge` — the check
is pure, so repetition never changes the outcome — and the single
invalid outcome `none` results both from a signature that does not match
the token's own contents and from an age beyond `maxAge`. -/
theorem verify_qr_data_token_spec (key s T max_age now : Nat) :
    (verify_qr_data key (generate_qr_code key s T) max_age now = some s ↔
      now - T ≤ max_age) ∧
    (∀ t : SignedToken, t.sig ≠ mac_sign key t.value t.timestamp →
      verify_qr_data key t max_age now = none) ∧
    (max_age < now - T →
      verify_qr_data key (generate_qr_code key s T) max_age now =
        none) := by
  have hred : verify_qr_data key (generate_qr_code key s T) max_age now =
      (if now - T > max_age then none else some s) := by
    simp [verify_qr_data, generate_qr_code]
  refine ⟨?_, ?_, ?_⟩
  · rw [hred]
    by_cases hage : now - T > max_age
    · rw [if_pos hage]
      exact ⟨fun hc => (by cases hc), fun hle => absurd hle (by omega)⟩
    · rw [if_neg hage]
      exact ⟨fun _ => (by omega), fun _ => rfl⟩
  · intro t ht
    simp only [verify_qr_data]
    rw [if_neg ht]
  · intro hage
    rw [hred, if_pos (by omega)]

/-- Witness for C7 with the default 300-second max age: a token issued
at 100 verifies at 400 (age exactly 300), fails at 401, and a token
whose signature does not match its contents fails. -/
theorem verify_qr_data_token_spec_witness :
    verify_qr_data 1 (generate_qr_code 1 42 100) default_max_age 400 =
      some 42 ∧
    verify_qr_data 1 (generate_qr_code 1 42 100) default_max_age 401 =
      none ∧
    verify_qr_data 1 ⟨42, 100, 0⟩ default_max_age 150 = none := by
  have h1 := verify_qr_data_token_spec 1 42 100 default_max_age 400
  have h2 := verify_qr_data_token_spec 1 42 100 default_max_age 401
  have h3 := verify_qr_data_token_spec 1 42 100 default_max_age 150
  exact ⟨h1.1.mpr (by decide), h2.2.2 (by decide),
    h3.2.1 ⟨42, 100, 0⟩ (by decide)⟩

/-- C8 counterexample: manual marking does not always succeed as an
upsert — for a student not enrolled in the subject it is rejected and
creates no record. -/
theorem mark_manual_attendance_requires_enrollment :
    mark_manual_attendance [] [] wrap_subject 7 .PRESENT 10 500
        demo_settings =
      (ManualResult.notEnrolled, [], []) := rfl

/-- Persisting an optional notification: pattern match as an
`Option.elim`. -/
lemma option_match_elim (o : Option ParentNotification)
    (notifications : List ParentNotification) :
    (match o with
      | some n => n :: notifications
      | none => notifications) =
      o.elim notifications (fun n => n :: notifications) := by
  cases o <;> rfl

/-- C8 (amended): for a student enrolled in the subject, manual marking
always succeeds as an upsert — creating the (student, subject, date)
record with the caller-supplied status and method MANUAL when none
exists, and otherwise replacing only the existing record's status and
method (ignoring the schedule window and lateness classification, and
leaving other rows and the record's other fields untouched); when the
supplied status is ABSENT the notification trigger is invoked on the
written record and its product, if any, is persisted. -/
theorem mark_manual_attendance_upsert (records : List AttendanceRecord)
    (notifications : List ParentNotification) (subject : Subject)
    (student_id : Nat) (status : AttStatus) (today now_minutes : Nat)
    (settings : SchoolSettings) (henr : student_id ∈ subject.students) :
    (mark_manual_attendance records notifications subject student_id
        status today now_minutes settings).1 = ManualResult.success ∧
    (records.find? (fun r => r.student == student_id &&
        r.subject == subject.id && r.date == today) = none →
      (mark_manual_attendance records notifications subject student_id
          status today now_minutes settings).2.1 =
        { student := student_id, subject := subject.id, date := today,
          status := status, scan_method := .MANUAL,
          timestamp := now_minutes, location_data := none } :: records) ∧
    (∀ r, records.find? (fun r => r.student == student_id &&
        r.subject == subject.id && r.date == today) = some r →
      (mark_manual_attendance records notifications subject student_id
          status today now_minutes settings).2.1 =
        records.map (fun x =>
          if x.student == student_id && x.subject == subject.id &&
              x.date == today then
            { r with status := status, scan_method := .MANUAL }
          else x)) ∧
    (status ≠ .ABSENT →
      (mark_manual_attendance records notifications subject student_id
        status today now_minutes settings).2.2 = notifications) ∧
    (status = .ABSENT →
      ∃ w, w ∈ (mark_manual_attendance records notifications subject
          student_id status today now_minutes settings).2.1 ∧
        w.student = student_id ∧ w.subject = subject.id ∧
        w.date = today ∧ w.status = status ∧ w.scan_method = .MANUAL ∧
        (mark_manual_attendance records notifications subject student_id
            status today now_minutes settings).2.2 =
          (trigger_parent_notification w
            (mark_manual_attendance records notifications subject
              student_id status today now_minutes settings).2.1
            settings).elim notifications
              (fun n => n :: notifications)) := by
  refine ⟨?_, ?_, ?_, ?_, ?_⟩
  · simp only [mark_manual_attendance]
    rw [if_pos henr]
  · intro h
    simp only [mark_manual_attendance]
    rw [if_pos henr, h]
  · intro r hr
    simp only [mark_manual_attendance]
    rw [if_pos henr, hr]
  · intro h
    simp only [mark_manual_attendance]
    rw [if_pos henr, if_neg h]
  · intro h
    cases hfind : records.find? (fun r => r.student == student_id &&
        r.subject == subject.id && r.date == today) with
    | none =>
      have hcons : (mark_manual_attendance records notifications subject
          student_id status today now_minutes settings).2.1 =
          { student := student_id, subject := subject.id, date := today,
            status := status, scan_method := .MANUAL,
            timestamp := now_minutes,
            location_data := none } :: records := by
        simp only [mark_manual_attendance]
        rw [if_pos henr, hfind]
      have hnot : (mark_manual_attendance records notifications subject
          student_id status today now_minutes settings).2.2 =
          (match trigger_parent_notification
              { student := student_id, subject := subject.id,
                date := today, status := status, scan_method := .MANUAL,
                timestamp := now_minutes, location_data := none }
              ({ student := student_id, subject := subject.id,
                 date := today, status := status, scan_method := .MANUAL,
                 timestamp := now_minutes,
                 location_data := none } :: records) settings with
            | some n => n :: notifications
            | none => notifications) := by
        simp only [mark_manual_attendance]
        rw [if_pos henr, hfind, if_pos h]
      refine
        ⟨{ student := student_id, subject := subject.id, date := today,
           status := status, scan_method := .MANUAL,
           timestamp := now_minutes, location_data := none },
         ?_, rfl, rfl, rfl, rfl, rfl, ?_⟩
      · rw [hcons]
        exact List.mem_cons_self _ _
      · rw [hnot, hcons, option_match_elim]
    | some r =>
      have hmem : r ∈ records := List.mem_of_find?_eq_some hfind
      have hkey := List.find?_some hfind
      have hmap : (mark_manual_attendance records notifications subject
          student_id status today now_minutes settings).2.1 =
          records.map (fun x =>
            if x.student == student_id && x.subject == subject.id &&
                x.date == today then
              { r with status := status, scan_method := .MANUAL }
            else x) := by
        simp only [mark_manual_attendance]
        rw [if_pos henr, hfind]
      have hnot : (mark_manual_attendance records notifications subject
          student_id status today now_minutes settings).2.2 =
          (match trigger_parent_notification
              { r with status := status, scan_method := .MANUAL }
              (records.map (fun x =>
                if x.student == student_id && x.subject == subject.id &&
                    x.date == today then
                  { r with status := status, scan_method := .MANUAL }
                else x)) settings with
            | some n => n :: notifications
            | none => notifications) := by
        simp only [mark_manual_attendance]
        rw [if_pos henr, hfind, if_pos h]
      refine
        ⟨{ r with status := status, scan_method := .MANUAL },
         ?_, ?_, ?_, ?_, rfl, rfl, ?_⟩
      · rw [hmap]
        refine List.mem_map.mpr ⟨r, hmem, ?_⟩
        simp [hkey]
      · simp only [Bool.and_eq_true, beq_iff_eq] at hkey
        exact hkey.1.1
      · simp only [Bool.and_eq_true, beq_iff_eq] at hkey
        exact hkey.1.2
      · simp only [Bool.and_eq_true, beq_iff_eq] at hkey
        exact hkey.2
      · rw [hnot, hmap, option_match_elim]

/-- Witness for C8: marking enrolled student 7 absent on an empty table
succeeds and creates the MANUAL record. -/
theorem mark_manual_attendance_upsert_witness :
    (mark_manual_attendance [] [] demo_subject 7 .ABSENT 10 500
        strict_settings).1 = ManualResult.success ∧
    (mark_manual_attendance [] [] demo_subject 7 .ABSENT 10 500
        strict_settings).2.1 =
      [{ student := 7, subject := 1, date := 10, status := .ABSENT,
         scan_method := .MANUAL, timestamp := 500,
         location_data := none }] := by
  have h := mark_manual_attendance_upsert [] [] demo_subject 7 .ABSENT 10
    500 strict_settings (by decide)
  exact ⟨h.1, h.2.1 rfl⟩

end Attendance
